import Mathlib

/-!
Verification of the blog CMS backend (Express/Mongoose article server).

The development shallowly embeds the article data model, the four
Mongoose pre-save hooks of models/Article.js (slug, publishedAt,
readTime, excerpt), the controller code paths of
controllers/articleController.js (updateArticle, publishArticle,
unpublishArticle) and controllers/publicController.js /
authController (getPublicArticle, likeArticle, toggleLikeArticle,
saveArticle, unsaveArticle), and the express-validator category rule
of routes/articles.js.

JavaScript string semantics that matter here are modelled explicitly:
  - String.prototype.trim ignores its argument and strips only
    whitespace, so the .trim(HYPHEN) calls in the slug pipeline do not
    strip hyphens;
  - the empty string split on a whitespace regex yields a one-element
    array holding the empty string, and boundary separators yield
    boundary empty fields;
  - Array.prototype.join on an empty array yields the empty string.
-/

namespace Blog

/-- Legacy content block (models/Article.js contentBlockSchema): a typed
block with a content string. Only type and content are read by the
derivation pipeline. -/
structure ContentBlock where
  type : String
  content : String
deriving DecidableEq

/-- One block of the editor document (editorData.blocks in the source).
The data payload is modelled by the two fields the code reads:
data.text (absent ~ none) and data.items (absent ~ none). -/
structure EditorBlock where
  type : String
  text : Option String
  items : Option (List String)
deriving DecidableEq

/-- The editor document: editorData with its blocks array. -/
structure EditorData where
  blocks : List EditorBlock
deriving DecidableEq

/-- The Article document (models/Article.js articleSchema), restricted to
the fields the verified code paths read or write. likes is Int because
the source computes Math.max(0, likes - 1); ids and dates are Nat. -/
structure Article where
  id : Nat
  title : String
  slug : String
  contentBlocks : List ContentBlock
  editorData : Option EditorData
  excerpt : Option String
  category : Option String
  status : String
  publishedAt : Option Nat
  views : Nat
  likes : Int
  likedBy : List Nat
  readTime : Nat
deriving DecidableEq

/-- The User document (models/User.js), restricted to the fields the
engagement operations read or write. -/
structure User where
  id : Nat
  savedArticles : List Nat
deriving DecidableEq

/-- Which document paths Mongoose isModified reports as modified when a
save runs; one flag per path tested by the pre-save hooks. -/
structure Modified where
  title : Bool
  status : Bool
  contentBlocks : Bool
  editorData : Bool

/-- No path modified: a save of a document where none of the hook-tested
paths changed (for example a views or likes counter update). -/
def unmodified : Modified := ⟨false, false, false, false⟩

/-- All paths modified: a fresh document created through Article.create,
where Mongoose treats every set path as modified. -/
def allModified : Modified := ⟨true, true, true, true⟩

/-! ## JavaScript string primitives -/

/-- JS String.prototype.trim: strips leading and trailing whitespace.
It accepts no argument, so .trim(HYPHEN) in the source is exactly this
function: hyphens are never stripped. -/
def jsTrim (s : String) : String :=
  ⟨((s.data.dropWhile Char.isWhitespace).reverse.dropWhile Char.isWhitespace).reverse⟩

/-- JS String.prototype.toLowerCase, per character (ASCII range; the slug
pipeline strips every non-ASCII character right afterwards). -/
def jsToLower (s : String) : String := ⟨s.data.map Char.toLower⟩

/-- Replace every maximal run of characters satisfying p by the single
character out. Models the regex replacements SPACES-to-hyphen and
collapse-hyphens of the slug pipeline. -/
def replaceRuns (p : Char → Bool) (out : Char) : List Char → List Char
  | [] => []
  | [c] => if p c then [out] else [c]
  | c :: d :: cs =>
    if p c then
      if p d then replaceRuns p out (d :: cs)
      else out :: replaceRuns p out (d :: cs)
    else c :: replaceRuns p out (d :: cs)

/-- The character class [a-z0-9 -] kept by the slug strip step. -/
def isSlugKeepChar (c : Char) : Bool :=
  ( 'a' ≤ c && c ≤ 'z') || ( '0' ≤ c && c ≤ '9') || c == ' ' || c == '-'

/-- The slug derivation of models/Article.js lines 113-118 (duplicated in
updateArticle lines 254-259): lowercase, strip characters outside the
class [a-z0-9 -], replace whitespace runs by one hyphen, collapse hyphen
runs, then call trim with a hyphen argument, which JS ignores and which
therefore strips only whitespace. -/
def slugOfTitle (t : String) : String :=
  jsTrim ⟨replaceRuns (fun c => c == '-') '-'
    (replaceRuns Char.isWhitespace '-'
      ((jsToLower t).data.filter isSlugKeepChar))⟩

/-- JS split on a whitespace-run regex, accumulator holds the current
field reversed. The empty string yields one empty field; a boundary
separator yields a boundary empty field. -/
def jsSplitWSAux : List Char → List Char → List String
  | [], acc => [⟨acc.reverse⟩]
  | [c], acc => if c.isWhitespace then [⟨acc.reverse⟩, ""] else [⟨(c :: acc).reverse⟩]
  | c :: d :: cs, acc =>
    if c.isWhitespace then
      if d.isWhitespace then jsSplitWSAux (d :: cs) acc
      else ⟨acc.reverse⟩ :: jsSplitWSAux (d :: cs) []
    else jsSplitWSAux (d :: cs) (c :: acc)

/-- JS s.split(whitespace-run regex). -/
def jsSplitWS (s : String) : List String := jsSplitWSAux s.data []

/-- JS s.substring(a, b): the characters from index a (inclusive) to b
(exclusive). -/
def jsSubstring (s : String) (a b : Nat) : String := ⟨(s.data.drop a).take (b - a)⟩

/-- Math.ceil of n / d on non-negative integers. -/
def jsCeilDiv (n d : Nat) : Nat := (n + d - 1) / d

/-! ## Derived-field computation: pre-save hooks (models/Article.js) -/

/-- The full-text string built by the readTime pre-save hook
(models/Article.js lines 134-151): the joined legacy text-block contents
when contentBlocks is non-empty, then, when editorData has blocks, a
space plus the joined paragraph/header texts (an absent data.text joins
as the empty string). -/
def modelFullText (cbs : List ContentBlock) (ed : Option EditorData) : String :=
  let t1 := if cbs.length > 0 then
      " ".intercalate ((cbs.filter (fun b => b.type == "text")).map (fun b => b.content))
    else ""
  match ed with
  | some d =>
    if d.blocks.length > 0 then
      t1 ++ " " ++ " ".intercalate
        ((d.blocks.filter (fun b => b.type == "paragraph" || b.type == "header")).map
          (fun b => b.text.getD ""))
    else t1
  | none => t1

/-- The readTime computed by the pre-save hook (models/Article.js lines
153-154): split the full text on whitespace runs with JS semantics and
take the ceiling of the field count over 200. Note that the JS split of
the empty string yields one field, not zero. -/
def modelReadTime (cbs : List ContentBlock) (ed : Option EditorData) : Nat :=
  jsCeilDiv (jsSplitWS (modelFullText cbs ed)).length 200

/-- Truthiness of block.data and block.data.text in the excerpt hook: the
text exists and is non-empty. -/
def truthyText (b : EditorBlock) : Bool :=
  match b.text with
  | some s => decide (s ≠ "")
  | none => false

/-- Truthiness of block.data, block.data.items and items.length > 0 in
the excerpt hook. -/
def listHasItems (b : EditorBlock) : Bool :=
  match b.items with
  | some l => decide (l.length > 0)
  | none => false

/-- The find predicate of the excerpt pre-save hook (models/Article.js
lines 174-185): paragraph or header with truthy text, quote with truthy
text, or list with a non-empty items array. -/
def edExcerptPred (b : EditorBlock) : Bool :=
  if b.type == "paragraph" || b.type == "header" then truthyText b
  else if b.type == "quote" then truthyText b
  else if b.type == "list" then listHasItems b
  else false

/-- The payload the excerpt hook reads from a found editor block: the
first item for a list block, data.text otherwise. -/
def edBlockPayload (b : EditorBlock) : String :=
  if b.type == "list" then ((b.items.getD []).headD "") else b.text.getD ""

/-- The editorData branch of the excerpt pre-save hook (models/Article.js
lines 173-193): when editorData has blocks, the payload of the first
block matching edExcerptPred. -/
def edCandidate (ed : Option EditorData) : String :=
  match ed with
  | some d =>
    if d.blocks.length > 0 then
      match d.blocks.find? edExcerptPred with
      | some b => edBlockPayload b
      | none => ""
    else ""
  | none => ""

/-- The excerpt candidate of the pre-save hook (models/Article.js lines
162-194): the first legacy text block content when contentBlocks is
non-empty; when that leaves the candidate empty, the editorData branch. -/
def excerptCandidate (cbs : List ContentBlock) (ed : Option EditorData) : String :=
  let e1 := if cbs.length > 0 then
      match cbs.find? (fun b => b.type == "text") with
      | some b => b.content
      | none => ""
    else ""
  if e1 == "" then edCandidate ed else e1

/-- Pre-save hook 1 (models/Article.js lines 111-121): regenerate the
slug from the title when the title is modified. -/
def hookSlug (m : Modified) (a : Article) : Article :=
  if m.title then { a with slug := slugOfTitle a.title } else a

/-- Pre-save hook 2 (models/Article.js lines 124-129): set publishedAt to
the current time when status is modified, is published, and publishedAt
is not already set. -/
def hookPublishedAt (m : Modified) (now : Nat) (a : Article) : Article :=
  if m.status && a.status == "published" && a.publishedAt == none then
    { a with publishedAt := some now }
  else a

/-- Pre-save hook 3 (models/Article.js lines 132-157): recompute readTime
when either content representation is modified. -/
def hookReadTime (m : Modified) (a : Article) : Article :=
  if m.contentBlocks || m.editorData then
    { a with readTime := modelReadTime a.contentBlocks a.editorData }
  else a

/-- Pre-save hook 4 (models/Article.js lines 160-201): when either
content representation is modified and the candidate is truthy, store
its first 200 characters plus an ellipsis; otherwise leave the stored
excerpt untouched. -/
def hookExcerpt (m : Modified) (a : Article) : Article :=
  if m.contentBlocks || m.editorData then
    if excerptCandidate a.contentBlocks a.editorData == "" then a
    else
      { a with
          excerpt := some
            (jsSubstring (excerptCandidate a.contentBlocks a.editorData) 0 200 ++ "...") }
  else a

/-- A Mongoose save: the four pre-save hooks run in declaration order. -/
def applyHooks (m : Modified) (now : Nat) (a : Article) : Article :=
  hookExcerpt m (hookReadTime m (hookPublishedAt m now (hookSlug m a)))

/-! ## Derived-field computation: updateArticle recompute branch
(controllers/articleController.js lines 280-321). findByIdAndUpdate
skips the pre-save hooks, so the controller recomputes the derived
fields itself from the request body, with slightly different logic. -/

/-- The blocks reached by the optional chain editorData?.blocks on the
request body: the outer Option is field presence in the body, the inner
one is null versus an editor document. -/
def edBlocksOfReq (edReq : Option (Option EditorData)) : Option (List EditorBlock) :=
  match edReq with
  | some (some d) => some d.blocks
  | _ => none

/-- The fullText accumulated by updateArticle (lines 283-311): a leading
space plus joined legacy text contents when the body carries a non-empty
contentBlocks array, then a leading space plus joined paragraph/header
texts (string-typed data.text, possibly empty) when the body carries
editor blocks. -/
def updFullText (cbsReq : Option (List ContentBlock))
    (edReq : Option (Option EditorData)) : String :=
  let f1 := match cbsReq with
    | some cbs =>
      if cbs.length > 0 then
        "" ++ " " ++ " ".intercalate
          ((cbs.filter (fun b => b.type == "text")).map (fun b => b.content))
      else ""
    | none => ""
  match edBlocksOfReq edReq with
  | some bs =>
    if bs.length > 0 then
      f1 ++ " " ++ " ".intercalate
        ((bs.filter (fun b => (b.type == "paragraph" || b.type == "header") && b.text.isSome)).map
          (fun b => b.text.getD ""))
    else f1
  | none => f1

/-- The readTime computed by updateArticle (lines 319-320): zero when the
trimmed full text is empty, otherwise the ceiling of the whitespace
token count over 200. -/
def updReadTime (cbsReq : Option (List ContentBlock))
    (edReq : Option (Option EditorData)) : Nat :=
  let t := jsTrim (updFullText cbsReq edReq)
  if t == "" then 0 else jsCeilDiv (jsSplitWS t).length 200

/-- The excerpt candidate of updateArticle (lines 282-304): the first
legacy text block content; when that is empty, the data.text of the
first paragraph/header block whose data.text is a string (possibly
empty). Quote and list blocks are never considered on this path. -/
def updCandidate (cbsReq : Option (List ContentBlock))
    (edReq : Option (Option EditorData)) : String :=
  let e1 := match cbsReq with
    | some cbs =>
      if cbs.length > 0 then
        match cbs.find? (fun b => b.type == "text") with
        | some b => b.content
        | none => ""
      else ""
    | none => ""
  if e1 == "" then
    match edBlocksOfReq edReq with
    | some bs =>
      if bs.length > 0 then
        match bs.find? (fun b => (b.type == "paragraph" || b.type == "header") && b.text.isSome) with
        | some b => b.text.getD ""
        | none => ""
      else ""
    | none => ""
  else e1

/-- The excerpt stored by updateArticle (lines 313-317): first 200
characters of the candidate plus an ellipsis when the candidate is
truthy, the empty string otherwise. -/
def updExcerpt (cbsReq : Option (List ContentBlock))
    (edReq : Option (Option EditorData)) : String :=
  if updCandidate cbsReq edReq == "" then ""
  else jsSubstring (updCandidate cbsReq edReq) 0 200 ++ "..."

/-- The status branch of updateArticle (lines 265-273): set the status;
on a transition to published set publishedAt only when absent. On a
transition to draft the source writes undefined for publishedAt into
the findByIdAndUpdate document, and Mongoose (version 6 or later, per
the promise-returning populate calls in the same file) strips undefined
keys from update documents, so that write is a no-op: publishedAt is
left unchanged. No pre-save hook runs on this path. -/
def updApplyStatus (st : String) (now : Nat) (a : Article) : Article :=
  let a1 := { a with status := st }
  if st == "published" && a.publishedAt == none then
    { a1 with publishedAt := some now }
  else a1

/-! ## Lifecycle endpoints (controllers/articleController.js) -/

/-- publishArticle (lines 395-429): set status to published, set
publishedAt when absent, then save through the hooks. The endpoint
performs no category check of any kind. -/
def publishArticle (now : Nat) (a : Article) : Article :=
  applyHooks { unmodified with status := a.status != "published" } now
    (if a.publishedAt == none then
      { a with status := "published", publishedAt := some now }
    else { a with status := "published" })

/-- unpublishArticle (lines 434-464): set status to draft and save
through the hooks. No statement touches publishedAt. -/
def unpublishArticle (now : Nat) (a : Article) : Article :=
  applyHooks { unmodified with status := a.status != "draft" } now
    { a with status := "draft" }

/-- The express-validator category rule shared by create and update
(routes/articles.js): the rule is optional, so an absent category field
skips the custom check entirely; a present category fails when it is
empty while the requested status is published, or when it is non-empty
and outside the schema enumeration. -/
def validCategories : List String :=
  ["UXUI", "UX", "UI", "Design", "Development", "AI", "Design", "Daily"]

/-- Whether the category validation of the request body passes. -/
def categoryValidationOk (reqStatus : Option String) (reqCategory : Option String) : Bool :=
  match reqCategory with
  | none => true
  | some v =>
    if reqStatus == some "published" && v == "" then false
    else if v != "" && !(validCategories.contains v) then false
    else true

/-! ## Engagement operations (publicController.js / authController) -/

/-- findOne on id restricted to published status, the lookup used by the
engagement and public-fetch endpoints. -/
def findPublishedById (db : List Article) (i : Nat) : Option Article :=
  db.find? (fun a => a.id == i && a.status == "published")

/-- findOne on slug restricted to published status. -/
def findPublishedBySlug (db : List Article) (s : String) : Option Article :=
  db.find? (fun a => a.slug == s && a.status == "published")

/-- Persist a document back by id, as article.save does. -/
def updateById (db : List Article) (i : Nat) (a : Article) : List Article :=
  db.map (fun b => if b.id == i then a else b)

/-- The state change of toggleLikeArticle (authController lines 633-644):
remove the user and decrement likes (floored at zero) when the user is
in likedBy, otherwise append the user and increment likes. -/
def toggleLike (uid : Nat) (a : Article) : Article :=
  if uid ∈ a.likedBy then
    { a with likedBy := a.likedBy.filter (fun x => x != uid),
             likes := max 0 (a.likes - 1) }
  else
    { a with likedBy := a.likedBy ++ [uid], likes := a.likes + 1 }

/-- The toggleLikeArticle endpoint (authController lines 616-663): 404
without mutation when the id does not resolve to a published article,
otherwise toggle and save (no hook-tested path is modified). -/
def toggleLikeArticleOp (db : List Article) (uid i : Nat) : Option (List Article) :=
  match findPublishedById db i with
  | none => none
  | some a => some (updateById db a.id (applyHooks unmodified 0 (toggleLike uid a)))

/-- The anonymous likeArticle endpoint (publicController lines 321-352):
404 without mutation when the id does not resolve to a published
article, otherwise increment likes with no membership tracking. -/
def likeArticleOp (db : List Article) (i : Nat) : Option (List Article) :=
  match findPublishedById db i with
  | none => none
  | some a => some (updateById db a.id (applyHooks unmodified 0 { a with likes := a.likes + 1 }))

/-- The saveArticle endpoint (authController lines 668-710): 404 without
mutation when the id does not resolve to a published article, otherwise
append the id to savedArticles unless already present. -/
def saveArticleOp (db : List Article) (u : User) (i : Nat) : Option User :=
  match findPublishedById db i with
  | none => none
  | some _ =>
    if i ∈ u.savedArticles then some u
    else some { u with savedArticles := u.savedArticles ++ [i] }

/-- The unsaveArticle endpoint (authController lines 715-744): no article
lookup at all; the id is filtered out of savedArticles and the endpoint
always reports success. -/
def unsaveArticleOp (u : User) (i : Nat) : Option User :=
  some { u with savedArticles := u.savedArticles.filter (fun x => x != i) }

/-! ## Public single-article fetch (publicController.js) -/

/-- The document written back by a successful public fetch: views
incremented by one, then saved through the hooks with no hook-tested
path modified. -/
def viewSave (now : Nat) (a : Article) : Article :=
  applyHooks unmodified now { a with views := a.views + 1 }

/-- getPublicArticleById (publicController lines 42-82): 404 without
mutation when the id does not resolve to a published article, otherwise
increment views and save. -/
def getPublicArticleById (db : List Article) (i : Nat) (now : Nat) : Option (List Article) :=
  match findPublishedById db i with
  | none => none
  | some a => some (updateById db a.id (viewSave now a))

/-- getPublicArticle by slug (publicController lines 6-37): same shape as
the fetch by id. -/
def getPublicArticleBySlug (db : List Article) (s : String) (now : Nat) : Option (List Article) :=
  match findPublishedBySlug db s with
  | none => none
  | some a => some (updateById db a.id (viewSave now a))

/-! ## Definitions written from the claim wording, for comparison with
the code. These two are deliberately NOT traced from the source: they
formalise the claimed selection rule so it can be compared with the
implemented one. -/

/-- Written from the wording of claim C5 and spec section 4.1: a
type-prioritised chain — the whole block list is searched for a
paragraph/header with non-empty text before any quote is considered,
and for a quote before any list is considered. -/
def candidateSpecChain (cbs : List ContentBlock) (ed : Option EditorData) : String :=
  let bs := match ed with
    | some d => d.blocks
    | none => []
  match cbs.find? (fun b => b.type == "text") with
  | some b => b.content
  | none =>
    match bs.find? (fun b => (b.type == "paragraph" || b.type == "header") && truthyText b) with
    | some b => b.text.getD ""
    | none =>
      match bs.find? (fun b => b.type == "quote" && truthyText b) with
      | some b => b.text.getD ""
      | none =>
        match bs.find? (fun b => b.type == "list" && listHasItems b) with
        | some b => (b.items.getD []).headD ""
        | none => ""

/-- Written from the amended wording of claim C5: a single document-order
scan — the first legacy text block wins when its content is non-empty,
otherwise the first editor block in document order that is a
paragraph/header with truthy text, a quote with truthy text, or a list
with at least one item. -/
def candidateDocOrder (cbs : List ContentBlock) (ed : Option EditorData) : String :=
  let fromEditor :=
    match (match ed with
      | some d => d.blocks
      | none => []).find? edExcerptPred with
    | some b => edBlockPayload b
    | none => ""
  match cbs.find? (fun b => b.type == "text") with
  | some b => if b.content == "" then fromEditor else b.content
  | none => fromEditor

/-! ## Concrete fixture documents used by counterexamples and witnesses -/

/-- A draft article with no category and no content. -/
def artC4 : Article :=
  ⟨1, "T", "t", [], none, none, none, "draft", none, 0, 0, [], 0⟩

/-- The editor document of the C5 counterexample: a quote block followed
by a paragraph block, both with non-empty text. -/
def edC5 : EditorData :=
  ⟨[⟨"quote", some "q", none⟩, ⟨"paragraph", some "p", none⟩]⟩

/-- A draft article with category unset. -/
def artC6 : Article :=
  ⟨1, "T", "t", [], none, none, none, "draft", none, 0, 0, [], 0⟩

/-- A published article with publishedAt set to 42. -/
def artC7 : Article :=
  ⟨1, "T", "t", [], none, none, some "UX", "published", some 42, 0, 0, [], 0⟩

/-- A published article with publishedAt set, for the publish-idempotence
witness. -/
def artC8 : Article :=
  ⟨1, "T", "t", [], none, none, some "UX", "published", some 42, 0, 0, [], 0⟩

/-- A draft article with id 1: its id does not resolve through the
published-only lookup. -/
def artC9 : Article :=
  ⟨1, "T", "t", [], none, none, none, "draft", none, 0, 0, [], 0⟩

/-- A published article for the view-increment witness. -/
def artC10 : Article :=
  ⟨1, "T", "t10", [], none, none, some "UX", "published", some 1, 5, 0, [], 0⟩

/-- A published article whose likes counter equals the cardinality of its
likedBy set, for the like-toggle witness. -/
def artC1 : Article :=
  ⟨1, "T", "t", [], none, none, some "UX", "published", some 1, 0, 2, [4, 9], 0⟩

/-! ## Helper lemmas on the JS array operations of the like toggle -/

theorem filter_bne_eq_self {l : List Nat} {u : Nat} (h : u ∉ l) :
    l.filter (fun x => x != u) = l := by
  induction l with
  | nil => rfl
  | cons a t ih =>
    simp only [List.mem_cons, not_or] at h
    have ha : (a != u) = true := by
      simp only [bne_iff_ne]
      exact fun e => h.1 e.symm
    simp [List.filter_cons, ha, ih h.2]

theorem length_filter_bne {l : List Nat} {u : Nat} (hn : l.Nodup) (hm : u ∈ l) :
    (l.filter (fun x => x != u)).length + 1 = l.length := by
  induction l with
  | nil => cases hm
  | cons a t ih =>
    rw [List.nodup_cons] at hn
    rcases List.mem_cons.mp hm with h | h
    · subst h
      simp [List.filter_cons, filter_bne_eq_self hn.1]
    · have ha : (a != u) = true := by
        simp only [bne_iff_ne]
        intro e
        exact hn.1 (e ▸ h)
      have := ih hn.2 h
      simp only [List.filter_cons, ha, if_true, List.length_cons]
      omega

theorem mem_filter_bne {v u : Nat} {l : List Nat} :
    v ∈ l.filter (fun x => x != u) ↔ v ∈ l ∧ v ≠ u := by
  simp [List.mem_filter]

/-- One authenticated toggle preserves the no-duplicates property of
likedBy and the equation likes = length of likedBy. -/
theorem toggleLike_step (uid : Nat) (a : Article) (hn : a.likedBy.Nodup)
    (hc : a.likes = (a.likedBy.length : Int)) :
    (toggleLike uid a).likedBy.Nodup ∧
      (toggleLike uid a).likes = ((toggleLike uid a).likedBy.length : Int) := by
  unfold toggleLike
  by_cases hm : uid ∈ a.likedBy
  · simp only [if_pos hm]
    refine ⟨hn.filter _, ?_⟩
    have h1 := length_filter_bne hn hm
    have h2 : 1 ≤ a.likedBy.length := List.length_pos.mpr (List.ne_nil_of_mem hm)
    show max 0 (a.likes - 1) = ((a.likedBy.filter (fun x => x != uid)).length : Int)
    rw [hc]
    have hmax : max 0 ((a.likedBy.length : Int) - 1) = (a.likedBy.length : Int) - 1 :=
      max_eq_right (by omega)
    rw [hmax]
    omega
  · simp only [if_neg hm]
    refine ⟨?_, ?_⟩
    · rw [List.nodup_append]
      refine ⟨hn, List.nodup_singleton _, ?_⟩
      intro x hx hx1
      rw [List.mem_singleton] at hx1
      exact hm (hx1 ▸ hx)
    · simp only [List.length_append, List.length_singleton]
      rw [hc]
      push_cast
      ring

/-- Any sequence of authenticated toggles preserves the invariant. -/
theorem toggleLike_foldl (us : List Nat) :
    ∀ (a : Article), a.likedBy.Nodup → a.likes = (a.likedBy.length : Int) →
      (us.foldl (fun x u => toggleLike u x) a).likedBy.Nodup ∧
        (us.foldl (fun x u => toggleLike u x) a).likes
          = (((us.foldl (fun x u => toggleLike u x) a).likedBy.length : Int)) := by
  induction us with
  | nil => intro a hn hc; exact ⟨hn, hc⟩
  | cons u us ih =>
    intro a hn hc
    have h := toggleLike_step u a hn hc
    exact ih (toggleLike u a) h.1 h.2

/-- Toggling twice by the same user restores the likes counter and the
likedBy membership. -/
theorem toggleLike_double (uid : Nat) (a : Article) (_hn : a.likedBy.Nodup)
    (hc : a.likes = (a.likedBy.length : Int)) :
    (toggleLike uid (toggleLike uid a)).likes = a.likes ∧
      ∀ v : Nat, v ∈ (toggleLike uid (toggleLike uid a)).likedBy ↔ v ∈ a.likedBy := by
  by_cases hm : uid ∈ a.likedBy
  · have ht1 : toggleLike uid a =
        { a with likedBy := a.likedBy.filter (fun x => x != uid),
                 likes := max 0 (a.likes - 1) } := by
      rw [toggleLike, if_pos hm]
    have hm1 : uid ∉ (toggleLike uid a).likedBy := by
      rw [ht1]
      simp [mem_filter_bne]
    have ht2 : toggleLike uid (toggleLike uid a) =
        { a with likedBy := a.likedBy.filter (fun x => x != uid) ++ [uid],
                 likes := max 0 (a.likes - 1) + 1 } := by
      rw [toggleLike, if_neg hm1, ht1]
    have h2 : 1 ≤ a.likedBy.length := List.length_pos.mpr (List.ne_nil_of_mem hm)
    constructor
    · rw [ht2]
      show max 0 (a.likes - 1) + 1 = a.likes
      rw [hc]
      have hmax : max 0 ((a.likedBy.length : Int) - 1) = (a.likedBy.length : Int) - 1 :=
        max_eq_right (by omega)
      rw [hmax]
      ring
    · intro v
      rw [ht2]
      show v ∈ a.likedBy.filter (fun x => x != uid) ++ [uid] ↔ v ∈ a.likedBy
      rw [List.mem_append, mem_filter_bne, List.mem_singleton]
      constructor
      · rintro (⟨h, _⟩ | h)
        · exact h
        · exact h ▸ hm
      · intro h
        by_cases hv : v = uid
        · exact Or.inr hv
        · exact Or.inl ⟨h, hv⟩
  · have ht1 : toggleLike uid a =
        { a with likedBy := a.likedBy ++ [uid], likes := a.likes + 1 } := by
      rw [toggleLike, if_neg hm]
    have hm1 : uid ∈ (toggleLike uid a).likedBy := by
      rw [ht1]
      simp
    have hfilter : (a.likedBy ++ [uid]).filter (fun x => x != uid) = a.likedBy := by
      rw [List.filter_append, filter_bne_eq_self hm]
      simp
    have ht2 : toggleLike uid (toggleLike uid a) =
        { a with likedBy := a.likedBy, likes := max 0 (a.likes + 1 - 1) } := by
      rw [toggleLike, if_pos hm1, ht1]
      simp only [hfilter]
    constructor
    · rw [ht2]
      show max 0 (a.likes + 1 - 1) = a.likes
      rw [hc]
      have : ((a.likedBy.length : Int) + 1 - 1) = (a.likedBy.length : Int) := by ring
      rw [this]
      exact max_eq_right (by omega)
    · intro v
      rw [ht2]

/-! ## Frame lemmas for the pre-save hooks -/

theorem hookSlug_status (m : Modified) (a : Article) : (hookSlug m a).status = a.status := by
  unfold hookSlug; split <;> rfl

theorem hookSlug_category (m : Modified) (a : Article) :
    (hookSlug m a).category = a.category := by
  unfold hookSlug; split <;> rfl

theorem hookSlug_publishedAt (m : Modified) (a : Article) :
    (hookSlug m a).publishedAt = a.publishedAt := by
  unfold hookSlug; split <;> rfl

theorem hookSlug_contentBlocks (m : Modified) (a : Article) :
    (hookSlug m a).contentBlocks = a.contentBlocks := by
  unfold hookSlug; split <;> rfl

theorem hookSlug_editorData (m : Modified) (a : Article) :
    (hookSlug m a).editorData = a.editorData := by
  unfold hookSlug; split <;> rfl

theorem hookSlug_excerpt (m : Modified) (a : Article) :
    (hookSlug m a).excerpt = a.excerpt := by
  unfold hookSlug; split <;> rfl

theorem hookPublishedAt_status (m : Modified) (now : Nat) (a : Article) :
    (hookPublishedAt m now a).status = a.status := by
  unfold hookPublishedAt; split <;> rfl

theorem hookPublishedAt_category (m : Modified) (now : Nat) (a : Article) :
    (hookPublishedAt m now a).category = a.category := by
  unfold hookPublishedAt; split <;> rfl

theorem hookPublishedAt_contentBlocks (m : Modified) (now : Nat) (a : Article) :
    (hookPublishedAt m now a).contentBlocks = a.contentBlocks := by
  unfold hookPublishedAt; split <;> rfl

theorem hookPublishedAt_editorData (m : Modified) (now : Nat) (a : Article) :
    (hookPublishedAt m now a).editorData = a.editorData := by
  unfold hookPublishedAt; split <;> rfl

theorem hookPublishedAt_excerpt (m : Modified) (now : Nat) (a : Article) :
    (hookPublishedAt m now a).excerpt = a.excerpt := by
  unfold hookPublishedAt; split <;> rfl

theorem hookPublishedAt_of_set {a : Article} {t : Nat} (m : Modified) (now : Nat)
    (h : a.publishedAt = some t) : (hookPublishedAt m now a).publishedAt = some t := by
  simp [hookPublishedAt, h]

theorem hookPublishedAt_of_status_ne {a : Article} (m : Modified) (now : Nat)
    (h : a.status ≠ "published") : (hookPublishedAt m now a).publishedAt = a.publishedAt := by
  have hb : (a.status == "published") = false := by simp [h]
  simp [hookPublishedAt, hb]

theorem hookReadTime_status (m : Modified) (a : Article) :
    (hookReadTime m a).status = a.status := by
  unfold hookReadTime; split <;> rfl

theorem hookReadTime_category (m : Modified) (a : Article) :
    (hookReadTime m a).category = a.category := by
  unfold hookReadTime; split <;> rfl

theorem hookReadTime_publishedAt (m : Modified) (a : Article) :
    (hookReadTime m a).publishedAt = a.publishedAt := by
  unfold hookReadTime; split <;> rfl

theorem hookReadTime_contentBlocks (m : Modified) (a : Article) :
    (hookReadTime m a).contentBlocks = a.contentBlocks := by
  unfold hookReadTime; split <;> rfl

theorem hookReadTime_editorData (m : Modified) (a : Article) :
    (hookReadTime m a).editorData = a.editorData := by
  unfold hookReadTime; split <;> rfl

theorem hookReadTime_excerpt (m : Modified) (a : Article) :
    (hookReadTime m a).excerpt = a.excerpt := by
  unfold hookReadTime; split <;> rfl

theorem hookExcerpt_status (m : Modified) (a : Article) :
    (hookExcerpt m a).status = a.status := by
  unfold hookExcerpt; split <;> first | rfl | (split <;> rfl)

theorem hookExcerpt_category (m : Modified) (a : Article) :
    (hookExcerpt m a).category = a.category := by
  unfold hookExcerpt; split <;> first | rfl | (split <;> rfl)

theorem hookExcerpt_publishedAt (m : Modified) (a : Article) :
    (hookExcerpt m a).publishedAt = a.publishedAt := by
  unfold hookExcerpt; split <;> first | rfl | (split <;> rfl)

theorem applyHooks_status (m : Modified) (now : Nat) (a : Article) :
    (applyHooks m now a).status = a.status := by
  unfold applyHooks
  rw [hookExcerpt_status, hookReadTime_status, hookPublishedAt_status, hookSlug_status]

theorem applyHooks_category (m : Modified) (now : Nat) (a : Article) :
    (applyHooks m now a).category = a.category := by
  unfold applyHooks
  rw [hookExcerpt_category, hookReadTime_category, hookPublishedAt_category, hookSlug_category]

theorem applyHooks_publishedAt_of_set {a : Article} {t : Nat} (m : Modified) (now : Nat)
    (h : a.publishedAt = some t) : (applyHooks m now a).publishedAt = some t := by
  unfold applyHooks
  rw [hookExcerpt_publishedAt, hookReadTime_publishedAt]
  exact hookPublishedAt_of_set m now ((hookSlug_publishedAt m a).trans h)

theorem applyHooks_publishedAt_of_status_ne {a : Article} (m : Modified) (now : Nat)
    (h : a.status ≠ "published") : (applyHooks m now a).publishedAt = a.publishedAt := by
  unfold applyHooks
  rw [hookExcerpt_publishedAt, hookReadTime_publishedAt]
  rw [hookPublishedAt_of_status_ne m now ((hookSlug_status m a).symm ▸ h)]
  exact hookSlug_publishedAt m a

/-! ## Helper lemmas for the excerpt pipeline -/

theorem viewSave_eq (now : Nat) (a : Article) :
    viewSave now a = { a with views := a.views + 1 } := rfl

theorem jsSubstring_excerpt_length (c : String) :
    (jsSubstring c 0 200 ++ "...").length ≤ 203 := by
  have h2 : (jsSubstring c 0 200 ++ "...").length = (jsSubstring c 0 200).length + 3 := by
    rw [String.length_append]
    rfl
  have h1 : (jsSubstring c 0 200).length ≤ 200 := by
    show ((c.data.drop 0).take 200).length ≤ 200
    simp [List.length_take]
  omega

theorem edCandidate_flat (ed : Option EditorData) :
    edCandidate ed =
      (match (match ed with
        | some d => d.blocks
        | none => []).find? edExcerptPred with
      | some b => edBlockPayload b
      | none => "") := by
  cases ed with
  | none => rfl
  | some d =>
    cases h : d.blocks with
    | nil => simp [edCandidate, h]
    | cons x xs => simp [edCandidate, h]

theorem excerptCandidate_eq_docOrder (cbs : List ContentBlock) (ed : Option EditorData) :
    excerptCandidate cbs ed = candidateDocOrder cbs ed := by
  unfold excerptCandidate candidateDocOrder
  cases cbs with
  | nil => simpa using edCandidate_flat ed
  | cons c t =>
    cases hf : (c :: t).find? (fun b => b.type == "text") with
    | none => simp [hf, edCandidate_flat ed]
    | some b =>
      by_cases hb : b.content = ""
      · simp [hf, hb, edCandidate_flat ed]
      · simp [hf, hb, edCandidate_flat ed]

/-! ## Claim theorems -/

/-- Claim C1: starting from a state where the likes counter equals the
cardinality of the likedBy set (a duplicate-free list), every sequence of
authenticated toggles keeps likes equal to the cardinality of likedBy,
and toggling twice by the same user restores both the likes counter and
the likedBy membership. -/
theorem like_toggle_invariant (a : Article) (hn : a.likedBy.Nodup)
    (hc : a.likes = (a.likedBy.length : Int)) :
    (∀ us : List Nat,
      (us.foldl (fun x u => toggleLike u x) a).likes
        = (((us.foldl (fun x u => toggleLike u x) a).likedBy.length : Int))) ∧
    (∀ uid : Nat,
      (toggleLike uid (toggleLike uid a)).likes = a.likes ∧
      ∀ v : Nat, v ∈ (toggleLike uid (toggleLike uid a)).likedBy ↔ v ∈ a.likedBy) :=
  ⟨fun us => (toggleLike_foldl us a hn hc).2, fun uid => toggleLike_double uid a hn hc⟩

/-- Witness for claim C1 at a concrete article with likes 2 and likedBy
[4, 9]: the hypotheses hold and the invariant holds after the toggle
sequence [9, 5] and after a double toggle by user 4. -/
theorem like_toggle_invariant_witness :
    artC1.likedBy.Nodup ∧ artC1.likes = (artC1.likedBy.length : Int) ∧
    (([9, 5] : List Nat).foldl (fun x u => toggleLike u x) artC1).likes
      = ((([9, 5] : List Nat).foldl (fun x u => toggleLike u x) artC1).likedBy.length : Int) ∧
    (toggleLike 4 (toggleLike 4 artC1)).likes = artC1.likes :=
  ⟨by decide, by decide,
    (like_toggle_invariant artC1 (by decide) (by decide)).1 [9, 5],
    ((like_toggle_invariant artC1 (by decide) (by decide)).2 4).1⟩

/-- Claim C2 (code bug): the slug pipeline does not strip leading or
trailing hyphens, because JS trim ignores its hyphen argument. The title
" hi " yields the slug "-hi-", whose first character is a hyphen,
against the claimed no-leading/no-trailing-hyphen property. -/
theorem slug_trim_retains_boundary_hyphens :
    slugOfTitle " hi " = "-hi-" ∧ (slugOfTitle " hi ").data.head? = some '-' := by
  decide

/-- Claim C3 (code bug): on the save path (pre-save hook) the empty full
text yields readTime 1, because the JS split of the empty string returns
one empty field, while the claim (and the update path of the controller,
which guards with trim) says readTime 0 for zero words. -/
theorem read_time_empty_content_divergence :
    modelReadTime [] none = 1 ∧ updReadTime (some []) none = 0 := by
  decide

/-- Counterexample for claim C4 as stated: on the save path an empty
excerpt candidate leaves the stored excerpt untouched (absent on first
create), not set to the empty string. -/
theorem excerpt_empty_candidate_omitted_on_save :
    excerptCandidate artC4.contentBlocks artC4.editorData = "" ∧
    (applyHooks allModified 0 artC4).excerpt = none ∧
    ¬ ((applyHooks allModified 0 artC4).excerpt = some "") := by
  decide

/-- Claim C4 (amended): when the candidate is non-empty both recompute
paths store its first 200 characters plus a three-character ellipsis
(length at most 203); when the candidate is empty the update path stores
the empty string while the save path leaves the stored excerpt
unchanged. -/
theorem excerpt_storage_amended :
    (∀ (m : Modified) (now : Nat) (a : Article), (m.contentBlocks || m.editorData) = true →
      (excerptCandidate a.contentBlocks a.editorData = "" →
        (applyHooks m now a).excerpt = a.excerpt) ∧
      (excerptCandidate a.contentBlocks a.editorData ≠ "" →
        (applyHooks m now a).excerpt
          = some (jsSubstring (excerptCandidate a.contentBlocks a.editorData) 0 200 ++ "...") ∧
        (jsSubstring (excerptCandidate a.contentBlocks a.editorData) 0 200 ++ "...").length
          ≤ 203)) ∧
    (∀ (cbsReq : Option (List ContentBlock)) (edReq : Option (Option EditorData)),
      (updCandidate cbsReq edReq = "" → updExcerpt cbsReq edReq = "") ∧
      (updCandidate cbsReq edReq ≠ "" →
        updExcerpt cbsReq edReq = jsSubstring (updCandidate cbsReq edReq) 0 200 ++ "..." ∧
        (updExcerpt cbsReq edReq).length ≤ 203)) := by
  constructor
  · intro m now a hm
    have hcb := (hookReadTime_contentBlocks m (hookPublishedAt m now (hookSlug m a))).trans
      ((hookPublishedAt_contentBlocks m now (hookSlug m a)).trans (hookSlug_contentBlocks m a))
    have hed := (hookReadTime_editorData m (hookPublishedAt m now (hookSlug m a))).trans
      ((hookPublishedAt_editorData m now (hookSlug m a)).trans (hookSlug_editorData m a))
    have hex := (hookReadTime_excerpt m (hookPublishedAt m now (hookSlug m a))).trans
      ((hookPublishedAt_excerpt m now (hookSlug m a)).trans (hookSlug_excerpt m a))
    constructor
    · intro h0
      show (hookExcerpt m _).excerpt = a.excerpt
      unfold hookExcerpt
      rw [hcb, hed, h0]
      simp [hm, hex]
    · intro h0
      have hb : (excerptCandidate a.contentBlocks a.editorData == "") = false := by
        simp [h0]
      constructor
      · show (hookExcerpt m _).excerpt = _
        unfold hookExcerpt
        rw [hcb, hed, hb]
        simp [hm]
      · exact jsSubstring_excerpt_length _
  · intro cbsReq edReq
    constructor
    · intro h
      simp [updExcerpt, h]
    · intro h
      have hb : (updCandidate cbsReq edReq == "") = false := by simp [h]
      refine ⟨by simp [updExcerpt, hb], ?_⟩
      rw [updExcerpt, hb]
      simpa using jsSubstring_excerpt_length (updCandidate cbsReq edReq)

/-- Witness for claim C4: at a fresh article with no content the
candidate is empty and the save path leaves the excerpt field as it was;
at an update request with one paragraph the candidate is non-empty and
the stored excerpt is its prefix plus the ellipsis. -/
theorem excerpt_storage_amended_witness :
    (allModified.contentBlocks || allModified.editorData) = true ∧
    excerptCandidate artC4.contentBlocks artC4.editorData = "" ∧
    (applyHooks allModified 0 artC4).excerpt = artC4.excerpt ∧
    updCandidate none (some (some ⟨[⟨"paragraph", some "hello", none⟩]⟩)) ≠ "" ∧
    updExcerpt none (some (some ⟨[⟨"paragraph", some "hello", none⟩]⟩))
      = jsSubstring (updCandidate none (some (some ⟨[⟨"paragraph", some "hello", none⟩]⟩)))
          0 200 ++ "..." :=
  ⟨by decide, by decide,
    (excerpt_storage_amended.1 allModified 0 artC4 (by decide)).1 (by decide),
    by decide,
    ((excerpt_storage_amended.2 none (some (some ⟨[⟨"paragraph", some "hello", none⟩]⟩))).2
      (by decide)).1⟩

/-- Counterexample for claim C5 as stated: with editor blocks
[quote "q", paragraph "p"] the claimed type-prioritised chain selects the
paragraph text "p", but the code selects the quote text "q", because the
hook scans in document order with a combined predicate. -/
theorem excerpt_priority_chain_counterexample :
    excerptCandidate [] (some edC5) = "q" ∧ candidateSpecChain [] (some edC5) = "p" := by
  decide

/-- Claim C5 (amended): on the save path the candidate is a single
document-order scan (legacy text block first, then the first editor
block that is a paragraph/header with truthy text, a quote with truthy
text, or a non-empty list); on the update path quote and list blocks are
never considered, so an editor document without paragraph or header
blocks yields an empty candidate. -/
theorem excerpt_candidate_document_order :
    (∀ (cbs : List ContentBlock) (ed : Option EditorData),
      excerptCandidate cbs ed = candidateDocOrder cbs ed) ∧
    (∀ bs : List EditorBlock,
      bs.all (fun b => !(b.type == "paragraph" || b.type == "header")) = true →
        updCandidate none (some (some ⟨bs⟩)) = "") := by
  constructor
  · exact excerptCandidate_eq_docOrder
  · intro bs hall
    have hf : bs.find?
        (fun b => (b.type == "paragraph" || b.type == "header") && b.text.isSome) = none := by
      rw [List.find?_eq_none]
      intro b hb
      have := List.all_eq_true.mp hall b hb
      simp only [Bool.not_eq_eq_eq_not, Bool.not_true] at this
      simp [this]
    cases bs with
    | nil => rfl
    | cons x xs => simp [updCandidate, edBlocksOfReq, hf]

/-- Witness for claim C5: the document-order equation at the concrete
quote-then-paragraph document, and the empty update-path candidate at a
single-quote document. -/
theorem excerpt_candidate_document_order_witness :
    excerptCandidate [] (some edC5) = candidateDocOrder [] (some edC5) ∧
    (([⟨"quote", some "q", none⟩] : List EditorBlock).all
      (fun b => !(b.type == "paragraph" || b.type == "header"))) = true ∧
    updCandidate none (some (some ⟨[⟨"quote", some "q", none⟩]⟩)) = "" :=
  ⟨excerpt_candidate_document_order.1 [] (some edC5), by decide,
    excerpt_candidate_document_order.2 [⟨"quote", some "q", none⟩] (by decide)⟩

/-- Counterexample for claim C6 as stated: publishing a draft article
whose category is unset succeeds through the publish endpoint — the
status becomes published instead of failing with a state error. -/
theorem publish_without_category_succeeds :
    artC6.category = none ∧ artC6.status = "draft" ∧
    (publishArticle 7 artC6).status = "published" ∧
    (publishArticle 7 artC6).category = none := by
  decide

/-- Claim C6 (amended): the publish endpoint enforces no category
requirement at all — it always sets status to published and never
touches category; the only category check is the optional create/update
request validator, which is skipped entirely when the category field is
absent from the body and fires only on a present empty category. -/
theorem publish_category_enforcement_amended :
    (∀ (now : Nat) (a : Article),
      (publishArticle now a).status = "published" ∧
      (publishArticle now a).category = a.category) ∧
    categoryValidationOk (some "published") none = true ∧
    categoryValidationOk (some "published") (some "") = false := by
  refine ⟨?_, by decide, by decide⟩
  intro now a
  constructor
  · unfold publishArticle
    split <;> rw [applyHooks_status]
  · unfold publishArticle
    split <;> rw [applyHooks_category]

/-- Counterexample for claim C7 as stated: the unpublish endpoint sets a
published article back to draft but leaves publishedAt set, against the
claim that every such transition clears it. -/
theorem unpublish_retains_published_at :
    artC7.status = "published" ∧ artC7.publishedAt = some 42 ∧
    (unpublishArticle 99 artC7).status = "draft" ∧
    (unpublishArticle 99 artC7).publishedAt = some 42 := by
  decide

/-- Claim C7 (amended): no code path clears publishedAt on a transition
back to draft. The dedicated unpublish endpoint sets status to draft and
leaves publishedAt exactly as it was, and the updateArticle status
branch writes undefined for publishedAt, which Mongoose strips from the
update document, so publishedAt is likewise left unchanged there. -/
theorem unpublish_never_clears_published_at :
    (∀ (now : Nat) (a : Article),
      (unpublishArticle now a).status = "draft" ∧
      (unpublishArticle now a).publishedAt = a.publishedAt) ∧
    (∀ (now : Nat) (a : Article),
      (updApplyStatus "draft" now a).status = "draft" ∧
      (updApplyStatus "draft" now a).publishedAt = a.publishedAt) := by
  constructor
  · intro now a
    constructor
    · unfold unpublishArticle
      rw [applyHooks_status]
    · unfold unpublishArticle
      exact applyHooks_publishedAt_of_status_ne _ _
        (by show ("draft" : String) ≠ "published"; decide)
  · intro now a
    have hp : (("draft" : String) == "published") = false := by decide
    constructor <;> simp [updApplyStatus, hp]

/-- Claim C8: publishing an article whose publishedAt is already set
changes publishedAt neither through the publish endpoint nor through the
update-status branch. -/
theorem publish_idempotent_published_at (a : Article) (t now : Nat)
    (h : a.publishedAt = some t) :
    (publishArticle now a).publishedAt = some t ∧
    (updApplyStatus "published" now a).publishedAt = some t := by
  constructor
  · unfold publishArticle
    have hif : (a.publishedAt == none) = false := by rw [h]; rfl
    rw [hif]
    simp only [Bool.false_eq_true, if_false]
    exact applyHooks_publishedAt_of_set _ _ h
  · simp [updApplyStatus, h]

/-- Witness for claim C8 at a published article with publishedAt 42. -/
theorem publish_idempotent_published_at_witness :
    artC8.publishedAt = some 42 ∧
    (publishArticle 9 artC8).publishedAt = some 42 ∧
    (updApplyStatus "published" 9 artC8).publishedAt = some 42 :=
  ⟨by decide, (publish_idempotent_published_at artC8 42 9 (by decide)).1,
    (publish_idempotent_published_at artC8 42 9 (by decide)).2⟩

/-- Counterexample for claim C9 as stated: unsaving an id that does not
resolve to a published article reports success and removes the id from
the saved set, against the claim that every engagement operation errors
without mutation in that case. -/
theorem unsave_skips_published_check :
    findPublishedById [artC9] 1 = none ∧
    unsaveArticleOp ⟨10, [1]⟩ 1 = some ⟨10, []⟩ := by
  decide

/-- Claim C9 (amended): toggle-like, anonymous like and save all resolve
the id against published articles first and report an error without any
mutation when the lookup fails; unsave performs no lookup at all — it
always succeeds and filters the id out of the saved set. -/
theorem engagement_published_gate_amended :
    (∀ (db : List Article) (uid i : Nat),
      findPublishedById db i = none → toggleLikeArticleOp db uid i = none) ∧
    (∀ (db : List Article) (i : Nat),
      findPublishedById db i = none → likeArticleOp db i = none) ∧
    (∀ (db : List Article) (u : User) (i : Nat),
      findPublishedById db i = none → saveArticleOp db u i = none) ∧
    (∀ (u : User) (i : Nat),
      unsaveArticleOp u i
        = some { u with savedArticles := u.savedArticles.filter (fun x => x != i) }) := by
  refine ⟨?_, ?_, ?_, ?_⟩
  · intro db uid i h
    simp [toggleLikeArticleOp, h]
  · intro db i h
    simp [likeArticleOp, h]
  · intro db u i h
    simp [saveArticleOp, h]
  · intro u i
    rfl

/-- Witness for claim C9 at a one-article database holding only a draft
article: every guarded operation returns an error and unsave filters the
saved set. -/
theorem engagement_published_gate_amended_witness :
    findPublishedById [artC9] 1 = none ∧
    toggleLikeArticleOp [artC9] 3 1 = none ∧
    likeArticleOp [artC9] 1 = none ∧
    saveArticleOp [artC9] ⟨10, []⟩ 1 = none ∧
    unsaveArticleOp ⟨10, [2]⟩ 2
      = some { User.mk 10 [2] with
          savedArticles := (User.mk 10 [2]).savedArticles.filter (fun x => x != 2) } :=
  ⟨by decide,
    engagement_published_gate_amended.1 [artC9] 3 1 (by decide),
    engagement_published_gate_amended.2.1 [artC9] 1 (by decide),
    engagement_published_gate_amended.2.2.1 [artC9] ⟨10, []⟩ 1 (by decide),
    engagement_published_gate_amended.2.2.2 ⟨10, [2]⟩ 2⟩

/-- Claim C10: a successful public fetch of a published article (by id or
by slug) writes back exactly the same document with views incremented by
one — the save through the hooks changes no other field — and a fetch
that finds no published article changes nothing. -/
theorem public_fetch_view_increment_frame :
    (∀ (now : Nat) (a : Article), viewSave now a = { a with views := a.views + 1 }) ∧
    (∀ (db : List Article) (i now : Nat) (a : Article),
      findPublishedById db i = some a →
        getPublicArticleById db i now
          = some (updateById db a.id { a with views := a.views + 1 })) ∧
    (∀ (db : List Article) (s : String) (now : Nat) (a : Article),
      findPublishedBySlug db s = some a →
        getPublicArticleBySlug db s now
          = some (updateById db a.id { a with views := a.views + 1 })) ∧
    (∀ (db : List Article) (i now : Nat),
      findPublishedById db i = none → getPublicArticleById db i now = none) ∧
    (∀ (db : List Article) (s : String) (now : Nat),
      findPublishedBySlug db s = none → getPublicArticleBySlug db s now = none) := by
  refine ⟨fun now a => viewSave_eq now a, ?_, ?_, ?_, ?_⟩
  · intro db i now a h
    simp [getPublicArticleById, h, viewSave_eq]
  · intro db s now a h
    simp [getPublicArticleBySlug, h, viewSave_eq]
  · intro db i now h
    simp [getPublicArticleById, h]
  · intro db s now h
    simp [getPublicArticleBySlug, h]

/-- Witness for claim C10 at a one-article database holding a published
article with 5 views: the fetch by id and the fetch by slug both store
the article with 6 views and no other change, and a missing id yields an
error. -/
theorem public_fetch_view_increment_frame_witness :
    findPublishedById [artC10] 1 = some artC10 ∧
    getPublicArticleById [artC10] 1 3
      = some (updateById [artC10] artC10.id { artC10 with views := artC10.views + 1 }) ∧
    findPublishedBySlug [artC10] "t10"
      = some artC10 ∧
    getPublicArticleBySlug [artC10] "t10" 3
      = some (updateById [artC10] artC10.id { artC10 with views := artC10.views + 1 }) ∧
    findPublishedById [artC10] 2 = none ∧
    getPublicArticleById [artC10] 2 3 = none :=
  ⟨by decide,
    public_fetch_view_increment_frame.2.1 [artC10] 1 3 artC10 (by decide),
    by decide,
    public_fetch_view_increment_frame.2.2.1 [artC10] "t10" 3 artC10 (by decide),
    by decide,
    public_fetch_view_increment_frame.2.2.2.1 [artC10] 2 3 (by decide)⟩

end Blog
